import Mathlib

/-!
Verification development for a fragment of a conversational-AI training
framework.  The sources under verification are

  * rasa/graph_components/validators/default_recipe_validator.py
    (the "DefaultV1" recipe validator), and
  * rasa/nlu/training_data/formats/rasa_yaml.py
    (the YAML training-data reader).

Pure data containers and small collaborator routines that live outside the
two source files (the TrainingData container, the entity-markup helpers, the
lookup-table and synonym helpers, the policy default configurations and the
two delegated compatibility checks) are modelled from the specification; each
such definition carries a doc comment saying so.  Everything else is a direct
shallow embedding of the Python sources: Python lists become Lean lists,
Python dictionaries become association lists that preserve insertion order,
Python sets become first-occurrence-deduplicated lists, warning emission
becomes an accumulated list of structured warning values, and raising becomes
an explicit error value that aborts the rest of the run while keeping the
warnings emitted so far.
-/

/-! ## Generic helpers (Python list, dict and string idioms) -/

/-- First-occurrence deduplication with an accumulator of already-seen
elements.  This models the deterministic part of building a Python set from a
list: every element is kept at its first occurrence. -/
def dedupFirstAux [DecidableEq α] : List α → List α → List α
  | [], _ => []
  | x :: xs, seen =>
    if x ∈ seen then dedupFirstAux xs seen else x :: dedupFirstAux xs (x :: seen)

/-- Keeps the first occurrence of every element of the list. -/
def dedupFirst [DecidableEq α] (l : List α) : List α := dedupFirstAux l []

/-- Insert-or-overwrite into an association list, modelling a Python dict
assignment: an existing key keeps its position and gets the new value, a new
key is appended at the end. -/
def dictInsert (k : String) (v : String) : List (String × String) → List (String × String)
  | [] => [(k, v)]
  | (k2, v2) :: rest =>
    if k2 == k then (k, v) :: rest else (k2, v2) :: dictInsert k v rest

/-- Character-level worker for `pySplitlines`.  A line terminator finishes the
current line; trailing characters without a terminator form a final line; an
empty remainder after the last terminator contributes nothing. -/
def pySplitlinesAux : List Char → List Char → List String
  | [], acc => if acc.isEmpty then [] else [String.mk acc.reverse]
  | '\r' :: '\n' :: rest, acc => String.mk acc.reverse :: pySplitlinesAux rest []
  | '\r' :: rest, acc => String.mk acc.reverse :: pySplitlinesAux rest []
  | '\n' :: rest, acc => String.mk acc.reverse :: pySplitlinesAux rest []
  | c :: rest, acc => pySplitlinesAux rest (c :: acc)

/-- Python's str.splitlines restricted to the common line terminators. -/
def pySplitlines (s : String) : List String := pySplitlinesAux s.data []

/-- Python slice s[a:b] on the characters of a string. -/
def stringSlice (s : String) (a b : Nat) : String :=
  String.mk ((s.data.drop a).take (b - a))

/-- Splits a character list at the first occurrence of the given character,
dropping it; none when the character does not occur. -/
def splitAtChar (c : Char) : List Char → Option (List Char × List Char)
  | [] => none
  | x :: xs =>
    if x = c then some ([], xs)
    else (splitAtChar c xs).map (fun p => (x :: p.1, p.2))

/-! ## YAML values

The YAML text parser itself (io_utils.read_yaml) is an external library; the
reader is embedded over already-parsed YAML documents.  Scalars are modelled
as strings. -/

/-- A parsed YAML value: a scalar string, a sequence, a mapping with entries
in document order, or null. -/
inductive YamlValue where
  | str (s : String)
  | list (items : List YamlValue)
  | dict (entries : List (String × YamlValue))
  | null

/-- Python truthiness of a YAML value: empty strings, empty sequences, empty
mappings and null are falsy. -/
def yamlTruthy : YamlValue → Bool
  | .str s => !s.isEmpty
  | .list items => !items.isEmpty
  | .dict entries => !entries.isEmpty
  | .null => false

/-- The string content of a scalar YAML value.  Non-string values reaching a
string position are out of scope of the embedding (Python would stringify or
fail on them) and are mapped to the empty string. -/
def YamlValue.asText : YamlValue → String
  | .str s => s
  | _ => ""

/-- First-match lookup in a YAML mapping, mirroring Python dict access. -/
def lookupDict (entries : List (String × YamlValue)) (key : String) : Option YamlValue :=
  match entries with
  | [] => none
  | (k, v) :: rest => if k == key then some v else lookupDict rest key

/-! ## NLU training data containers

Modelled from the spec: the TrainingData container and the Message class are
external collaborators ("mapping of categorized examples - intent-labeled
utterances (each with optional entity spans), entity synonym mappings
(surface form to canonical value), regex patterns (name + pattern string),
lookup tables (name + list of surface forms)"). -/

/-- An annotated entity span inside a training example: character offsets
into the plain text, the annotated surface value, the entity label, and
optional role and group tags. -/
structure EntitySpan where
  start : Nat
  stop : Nat
  value : String
  entity : String
  role : Option String := none
  group : Option String := none
deriving DecidableEq

/-- An intent-labeled training utterance, with its entity spans and an
optional response (set only for response-selector examples). -/
structure Message where
  text : String
  intent : String
  entities : List EntitySpan
  response : Option String := none
deriving DecidableEq

/-- A named regex pattern from the training data. -/
structure RegexFeature where
  name : String
  pattern : String
deriving DecidableEq

/-- A named lookup table: a name and its list of surface forms. -/
structure LookupTable where
  name : String
  elements : List String
deriving DecidableEq

/-- Modelled from the spec: the TrainingData container holding parsed
intents, synonyms, regexes and lookup tables. -/
structure TrainingData where
  trainingExamples : List Message
  entitySynonyms : List (String × String)
  regexFeatures : List RegexFeature
  lookupTables : List LookupTable
deriving DecidableEq

/-- Modelled from the spec: the response-selector examples of the training
data (the examples carrying a response). -/
def TrainingData.responseExamples (td : TrainingData) : List Message :=
  td.trainingExamples.filter (fun m => m.response.isSome)

/-- Modelled from the spec: the examples annotated with at least one entity
span. -/
def TrainingData.entityExamples (td : TrainingData) : List Message :=
  td.trainingExamples.filter (fun m => !m.entities.isEmpty)

/-- Modelled from the spec: the set of entity labels annotated anywhere in
the training examples. -/
def TrainingData.entities (td : TrainingData) : List String :=
  dedupFirst ((td.trainingExamples.map (fun m => m.entities.map (fun e => e.entity))).flatten)

/-- Modelled from the spec: whether any annotated entity uses a role or a
group tag. -/
def TrainingData.entityRolesGroupsUsed (td : TrainingData) : Bool :=
  td.trainingExamples.any (fun m =>
    m.entities.any (fun e => e.role.isSome || e.group.isSome))

/-! ## Entity markup, synonym and lookup-table helpers

These live in rasa/nlu/training_data/entities_parser.py,
synonyms_parser.py and lookup_tables_parser.py, which are not under the
sources being verified; they are modelled from the spec. -/

/-- Modelled from the spec: the entity-markup scanner behind
find_entities_in_training_example and replace_entities.  It recognizes
spans written as an annotated surface in square brackets followed by a label
in parentheses, returns the plain text with the markup removed together with
the spans (offsets into the plain text), and leaves unmatched brackets as
ordinary characters.  The fuel argument bounds the recursion and always
suffices when instantiated with the input length. -/
def parseEntityMarkup : Nat → List Char → Nat → List Char × List EntitySpan
  | 0, cs, _ => (cs, [])
  | _ + 1, [], _ => ([], [])
  | fuel + 1, '[' :: rest, pos =>
    match splitAtChar ']' rest with
    | some (surface, '(' :: afterBracket) =>
      match splitAtChar ')' afterBracket with
      | some (label, remaining) =>
        let tail := parseEntityMarkup fuel remaining (pos + surface.length)
        (surface ++ tail.1,
          ⟨pos, pos + surface.length, String.mk surface, String.mk label, none, none⟩ :: tail.2)
      | none =>
        let tail := parseEntityMarkup fuel rest (pos + 1)
        ('[' :: tail.1, tail.2)
    | _ =>
      let tail := parseEntityMarkup fuel rest (pos + 1)
      ('[' :: tail.1, tail.2)
  | fuel + 1, c :: rest, pos =>
    let tail := parseEntityMarkup fuel rest (pos + 1)
    (c :: tail.1, tail.2)

/-- Modelled from the spec: find_entities_in_training_example returns the
entity spans annotated in a training example. -/
def findEntitiesInTrainingExample (ex : String) : List EntitySpan :=
  (parseEntityMarkup (ex.data.length + 1) ex.data 0).2

/-- Modelled from the spec: replace_entities strips the entity markup from a
training example, leaving the plain text. -/
def replaceEntities (ex : String) : String :=
  String.mk (parseEntityMarkup (ex.data.length + 1) ex.data 0).1

/-- Modelled from the spec: add_synonym records a surface form as a synonym
of a canonical name in the synonym mapping. -/
def addSynonym (ex : String) (name : String)
    (synonyms : List (String × String)) : List (String × String) :=
  dictInsert ex name synonyms

/-- Modelled from the spec: add_synonyms_from_entities adds a synonym entry
for every annotated entity whose surface text differs from its value. -/
def addSynonymsFromEntities (exampleText : String) (entities : List EntitySpan)
    (synonyms : List (String × String)) : List (String × String) :=
  entities.foldl
    (fun acc e =>
      let surface := stringSlice exampleText e.start e.stop
      if surface == e.value then acc else addSynonym surface e.value acc)
    synonyms

/-- Modelled from the spec: add_item_to_lookup_tables appends a surface form
to the lookup table with the given name, creating the table if absent. -/
def addItemToLookupTables (name : String) (item : String) :
    List LookupTable → List LookupTable
  | [] => [⟨name, [item]⟩]
  | t :: ts =>
    if t.name == name then ⟨t.name, t.elements ++ [item]⟩ :: ts
    else t :: addItemToLookupTables name item ts

/-! ## The YAML training-data reader (rasa_yaml.py) -/

def KEY_NLU : String := "nlu"

def KEY_INTENT : String := "intent"

def KEY_INTENT_EXAMPLES : String := "examples"

def KEY_INTENT_TEXT : String := "text"

def KEY_SYNONYM : String := "synonym"

def KEY_SYNONYM_EXAMPLES : String := "examples"

def KEY_REGEX : String := "regex"

def KEY_REGEX_EXAMPLES : String := "examples"

def KEY_LOOKUP : String := "lookup"

def KEY_LOOKUP_EXAMPLES : String := "examples"

/-- The advisory warnings the YAML reader can emit (each constructor stands
for one raise_warning call site of rasa_yaml.py). -/
inductive ReaderWarning where
  | unexpectedBlock
  | unexpectedKey (key : String)
  | emptyIntentName
  | intentExamplesUnexpectedBlock (intent : String)
  | emptySynonymName
  | synonymWithoutExamples (name : String)
  | synonymUnexpectedBlock
  | emptyRegexName
  | regexWithoutExamples (name : String)
  | regexUnexpectedBlock
  | emptyLookupName
  | lookupWithoutExamples (name : String)
  | lookupUnexpectedBlock
deriving DecidableEq

/-- The mutable state of a RasaYAMLReader instance: the four accumulators
filled while parsing. -/
structure RasaYAMLReader where
  trainingExamples : List Message
  entitySynonyms : List (String × String)
  regexFeatures : List RegexFeature
  lookupTables : List LookupTable
deriving DecidableEq

/-- Embedding of the private reset method of RasaYAMLReader (called at the
start of every reads call): all four accumulators are cleared.  The source
method name is rejected by this development's lexical conventions, hence the
descriptive name. -/
def resetState (_r : RasaYAMLReader) : RasaYAMLReader := ⟨[], [], [], []⟩

/-- The text of one element of a list-valued examples block.  A mapping
element contributes its text field; for non-mapping truthy elements Python
would fail with an AttributeError, which is outside the embedded error
model. -/
def exampleItemText : YamlValue → String
  | .dict entries => ((lookupDict entries KEY_INTENT_TEXT).getD (.str "")).asText
  | v => v.asText

/-- Embedding of RasaYAMLReader._parse_training_examples: a sequence of
blocks contributes the text of every truthy element, a scalar string is
split into lines (without stripping any bullet symbols), anything else is
skipped with a warning; every resulting string is paired with its annotated
entity spans. -/
def parseTrainingExamples (examples : YamlValue) (intent : String) :
    List (String × List EntitySpan) × List ReaderWarning :=
  match examples with
  | .list items =>
    (((items.filter yamlTruthy).map exampleItemText).map
      (fun e => (e, findEntitiesInTrainingExample e)), [])
  | .str s =>
    ((pySplitlines s).map (fun e => (e, findEntitiesInTrainingExample e)), [])
  | _ => ([], [.intentExamplesUnexpectedBlock intent])

/-- Embedding of RasaYAMLReader._parse_intent. -/
def parseIntent (r : RasaYAMLReader) (item : List (String × YamlValue)) :
    RasaYAMLReader × List ReaderWarning :=
  let intent := (lookupDict item KEY_INTENT).getD (.str "")
  if !yamlTruthy intent then (r, [.emptyIntentName])
  else
    let examples := (lookupDict item KEY_INTENT_EXAMPLES).getD (.str "")
    let parsed := parseTrainingExamples examples intent.asText
    let r2 := parsed.1.foldl
      (fun acc p =>
        let syns := addSynonymsFromEntities p.1 p.2 acc.entitySynonyms
        let plainText := replaceEntities p.1
        let msg : Message := ⟨plainText, intent.asText, p.2, none⟩
        ⟨acc.trainingExamples ++ [msg], syns, acc.regexFeatures, acc.lookupTables⟩)
      r
    (r2, parsed.2)

/-- Embedding of RasaYAMLReader._parse_synonym. -/
def parseSynonym (r : RasaYAMLReader) (item : List (String × YamlValue)) :
    RasaYAMLReader × List ReaderWarning :=
  let synonymName := (lookupDict item KEY_SYNONYM).getD .null
  if !yamlTruthy synonymName then (r, [.emptySynonymName])
  else
    let examples := (lookupDict item KEY_SYNONYM_EXAMPLES).getD (.str "")
    if !yamlTruthy examples then (r, [.synonymWithoutExamples synonymName.asText])
    else
      match examples with
      | .str s =>
        (⟨r.trainingExamples,
          (pySplitlines s).foldl (fun acc e => addSynonym e synonymName.asText acc)
            r.entitySynonyms,
          r.regexFeatures, r.lookupTables⟩, [])
      | _ => (r, [.synonymUnexpectedBlock])

/-- Embedding of RasaYAMLReader._parse_regex. -/
def parseRegex (r : RasaYAMLReader) (item : List (String × YamlValue)) :
    RasaYAMLReader × List ReaderWarning :=
  let regexName := (lookupDict item KEY_REGEX).getD .null
  if !yamlTruthy regexName then (r, [.emptyRegexName])
  else
    let examples := (lookupDict item KEY_REGEX_EXAMPLES).getD (.str "")
    if !yamlTruthy examples then (r, [.regexWithoutExamples regexName.asText])
    else
      match examples with
      | .str s =>
        (⟨r.trainingExamples, r.entitySynonyms,
          r.regexFeatures ++ (pySplitlines s).map (fun e => ⟨regexName.asText, e⟩),
          r.lookupTables⟩, [])
      | _ => (r, [.regexUnexpectedBlock])

/-- Embedding of RasaYAMLReader._parse_lookup. -/
def parseLookup (r : RasaYAMLReader) (item : List (String × YamlValue)) :
    RasaYAMLReader × List ReaderWarning :=
  let lookupItemName := (lookupDict item KEY_LOOKUP).getD .null
  if !yamlTruthy lookupItemName then (r, [.emptyLookupName])
  else
    let examples := (lookupDict item KEY_LOOKUP_EXAMPLES).getD (.str "")
    if !yamlTruthy examples then (r, [.lookupWithoutExamples lookupItemName.asText])
    else
      match examples with
      | .str s =>
        (⟨r.trainingExamples, r.entitySynonyms, r.regexFeatures,
          (pySplitlines s).foldl
            (fun acc e => addItemToLookupTables lookupItemName.asText e acc)
            r.lookupTables⟩, [])
      | _ => (r, [.lookupUnexpectedBlock])

/-- Key dispatch inside RasaYAMLReader._parse_nlu: one iteration of its loop
over the keys of an nlu block. -/
def parseNluKey (r : RasaYAMLReader) (item : List (String × YamlValue)) (key : String) :
    RasaYAMLReader × List ReaderWarning :=
  if key == KEY_INTENT then parseIntent r item
  else if key == KEY_SYNONYM then parseSynonym r item
  else if key == KEY_REGEX then parseRegex r item
  else if key == KEY_LOOKUP then parseLookup r item
  else (r, [.unexpectedKey key])

/-- Loop of RasaYAMLReader._parse_nlu over the keys of one nlu block. -/
def parseNluKeys (item : List (String × YamlValue)) :
    RasaYAMLReader → List String → RasaYAMLReader × List ReaderWarning
  | r, [] => (r, [])
  | r, k :: ks =>
    let head := parseNluKey r item k
    let tail := parseNluKeys item head.1 ks
    (tail.1, head.2 ++ tail.2)

/-- One nlu block inside RasaYAMLReader._parse_nlu: a non-mapping block is
skipped with a warning, a mapping block dispatches on each of its keys in
order. -/
def parseNluItem (r : RasaYAMLReader) : YamlValue → RasaYAMLReader × List ReaderWarning
  | .dict entries => parseNluKeys entries r (entries.map (fun kv => kv.1))
  | _ => (r, [.unexpectedBlock])

/-- Loop of RasaYAMLReader._parse_nlu over the list of nlu blocks. -/
def parseNluList : RasaYAMLReader → List YamlValue → RasaYAMLReader × List ReaderWarning
  | r, [] => (r, [])
  | r, item :: rest =>
    let head := parseNluItem r item
    let tail := parseNluList head.1 rest
    (tail.1, head.2 ++ tail.2)

/-- Embedding of RasaYAMLReader._parse_nlu.  YAML nlu sections are
sequences; on a non-sequence value Python would iterate its elements or
fail with a TypeError, which no claim exercises, so it is a no-op here. -/
def parseNlu (r : RasaYAMLReader) : YamlValue → RasaYAMLReader × List ReaderWarning
  | .list items => parseNluList r items
  | _ => (r, [])

/-- Loop of RasaYAMLReader.reads over the top-level key-value pairs of the
parsed document: only the nlu section is processed. -/
def readsItems : RasaYAMLReader → List (String × YamlValue) → RasaYAMLReader × List ReaderWarning
  | r, [] => (r, [])
  | r, kv :: rest =>
    let head := if kv.1 == KEY_NLU then parseNlu r kv.2 else (r, [])
    let tail := readsItems head.1 rest
    (tail.1, head.2 ++ tail.2)

/-- Embedding of RasaYAMLReader.reads over an already-parsed YAML document:
resets the accumulated state, processes the top-level nlu section, and
builds the TrainingData object from the accumulated state. -/
def RasaYAMLReader.reads (r : RasaYAMLReader) (yamlContent : List (String × YamlValue)) :
    TrainingData × List ReaderWarning :=
  let r0 := resetState r
  let result := readsItems r0 yamlContent
  (⟨result.1.trainingExamples, result.1.entitySynonyms,
    result.1.regexFeatures, result.1.lookupTables⟩, result.2)

/-! ## The graph-schema data model (default_recipe_validator.py) -/

/-- The concrete graph-component classes the validator distinguishes.  Two
tokenizer subclasses are included so that schemas can mix tokenizer types. -/
inductive ComponentType where
  | whitespaceTokenizer
  | spacyTokenizer
  | countVectorsFeaturizer
  | regexFeaturizer
  | mitieEntityExtractor
  | crfEntityExtractor
  | dietClassifier
  | regexEntityExtractor
  | entitySynonymMapper
  | responseSelector
  | tedPolicy
  | memoizationPolicy
  | rulePolicy
deriving DecidableEq

/-- Subclasses of TokenizerGraphComponent. -/
def isTokenizer : ComponentType → Bool
  | .whitespaceTokenizer => true
  | .spacyTokenizer => true
  | _ => false

/-- Subclasses of the Featurizer2 base class. -/
def isFeaturizer : ComponentType → Bool
  | .countVectorsFeaturizer => true
  | .regexFeaturizer => true
  | _ => false

/-- Subclasses of PolicyGraphComponent. -/
def isPolicy : ComponentType → Bool
  | .tedPolicy => true
  | .memoizationPolicy => true
  | .rulePolicy => true
  | _ => false

/-- The TRAINABLE_EXTRACTORS constant of default_recipe_validator.py. -/
def TRAINABLE_EXTRACTORS : List ComponentType :=
  [.mitieEntityExtractor, .crfEntityExtractor, .dietClassifier]

/-- The kinds of training data a policy can consume (SupportedData). -/
inductive SupportedData where
  | mlData
  | ruleData
  | mlAndRuleData
deriving DecidableEq

/-- Modelled from the spec: the supported_data classmethod of each policy
class; the rule policy is the policy configured to consume rule-type
training data, the remaining policies train on ML-style story data. -/
def ComponentType.supportedData : ComponentType → SupportedData
  | .rulePolicy => .mlAndRuleData
  | _ => .mlData

/-- Modelled from the spec: the priority entry of get_default_config() of
each policy class.  The concrete numbers live outside the sources under
verification; only their use as defaults matters to the validator. -/
def defaultPriority : ComponentType → Int
  | .memoizationPolicy => 3
  | .rulePolicy => 6
  | _ => 1

/-- The slice of a schema-node configuration the validator reads: an
optional explicit priority and the CRF feature lists. -/
structure Config where
  priority : Option Int := none
  features : List (List String) := []
deriving DecidableEq

/-- A schema node: the component class it uses and its configuration. -/
structure SchemaNode where
  uses : ComponentType
  config : Config
deriving DecidableEq

/-- A graph schema: its schema nodes in insertion order (the values of the
Python mapping from node name to node). -/
structure GraphSchema where
  nodes : List SchemaNode
deriving DecidableEq

/-- The dialogue domain as seen by the validator: its declared form names. -/
structure Domain where
  formNames : List String
deriving DecidableEq

/-- A story step is either a rule step or an ordinary story step. -/
inductive StoryStep where
  | ruleStep
  | narrativeStep
deriving DecidableEq

/-- The story graph: its dialogue steps. -/
structure StoryGraph where
  storySteps : List StoryStep
deriving DecidableEq

/-- Modelled from the spec: ordered_steps of a story graph; the embedding
keeps the declaration order. -/
def StoryGraph.orderedSteps (sg : StoryGraph) : List StoryStep := sg.storySteps

/-- The training data importer: it provides NLU data, the story graph and
the domain. -/
structure TrainingDataImporter where
  nluData : TrainingData
  stories : StoryGraph
  domain : Domain
deriving DecidableEq

/-- Embedding of importer.get_nlu_data(). -/
def TrainingDataImporter.getNluData (imp : TrainingDataImporter) : TrainingData :=
  imp.nluData

/-- Embedding of importer.get_stories(). -/
def TrainingDataImporter.getStories (imp : TrainingDataImporter) : StoryGraph :=
  imp.stories

/-- Embedding of importer.get_domain(). -/
def TrainingDataImporter.getDomain (imp : TrainingDataImporter) : Domain :=
  imp.domain

/-- Modelled from the spec: the two delegated compatibility checks (the
featurizer-configuration check of Featurizer2 and the rule-policy versus
domain check of RulePolicyGraphComponent) are external collaborators; the
embedding abstracts them as boolean oracles. -/
structure Externals where
  featurizersCompatible : List Config → Bool
  rulePolicyCompatibleWithDomain : Config → Domain → Bool

/-- The advisory warnings the validator can emit (each constructor stands
for one raise_warning call site of default_recipe_validator.py). -/
inductive Warning where
  | unusedResponseData
  | unusedEntityData
  | unusedEntityRolesGroupsData
  | unusedRegexData
  | unusedLookupTablesNoRegexComponent
  | unusedLookupTablesNoPatternConsumer
  | crfMissingPatternFeature
  | unusedSynonymsData
  | competingExtractors (extractors : List ComponentType)
  | competitionWithRegexExtractor (extractors : List ComponentType) (overlap : List String)
  | noPoliciesButStories
  | noRulePolicy
  | samePriority (policies : List ComponentType) (priority : Int)
  | ruleDataIsMissing
  | ruleDataIsUnused
deriving DecidableEq

/-- True exactly on the same-priority advisory. -/
def Warning.isSamePriority : Warning → Bool
  | .samePriority _ _ => true
  | _ => false

/-- True exactly on the competing-extractors advisory. -/
def Warning.isCompetingExtractors : Warning → Bool
  | .competingExtractors _ => true
  | _ => false

/-- True exactly on the two rule-mismatch advisories. -/
def Warning.isRuleMismatch : Warning → Bool
  | .ruleDataIsMissing => true
  | .ruleDataIsUnused => true
  | _ => false

/-- The typed errors the validator can raise. -/
inductive RasaError where
  | moreThanOneTokenizer (tokenizers : List ComponentType)
  | incompatibleFeaturizers
  | formsButNoRulePolicy
  | rulePolicyIncompatibleWithDomain
deriving DecidableEq

/-- InvalidConfigException membership in the two-tier error taxonomy. -/
def RasaError.isConfigurationError : RasaError → Bool
  | .moreThanOneTokenizer _ => true
  | .incompatibleFeaturizers => true
  | _ => false

/-- InvalidDomain membership in the two-tier error taxonomy. -/
def RasaError.isDomainError : RasaError → Bool
  | .formsButNoRulePolicy => true
  | .rulePolicyIncompatibleWithDomain => true
  | _ => false

/-! ## The DefaultV1 recipe validator -/

/-- The validator; it is constructed from a finalized graph schema. -/
structure DefaultV1RecipeValidator where
  graphSchema : GraphSchema
deriving DecidableEq

/-- The set of distinct component types used by the schema (the
_component_types attribute precomputed in the constructor; Python set
membership becomes membership in a first-occurrence-deduplicated list). -/
def componentTypes (v : DefaultV1RecipeValidator) : List ComponentType :=
  dedupFirst (v.graphSchema.nodes.map (fun n => n.uses))

/-- The schema nodes whose component type is a policy (the
_policy_schema_nodes attribute precomputed in the constructor). -/
def policySchemaNodes (v : DefaultV1RecipeValidator) : List SchemaNode :=
  v.graphSchema.nodes.filter (fun n => isPolicy n.uses)

/-- The component types of the tokenizer-typed schema nodes
(types_of_tokenizer_schema_nodes inside _raise_if_more_than_one_tokenizer). -/
def tokenizerNodeTypes (v : DefaultV1RecipeValidator) : List ComponentType :=
  (v.graphSchema.nodes.filter (fun n => isTokenizer n.uses)).map (fun n => n.uses)

/-- Embedding of _raise_if_more_than_one_tokenizer. -/
def raiseIfMoreThanOneTokenizer (v : DefaultV1RecipeValidator) : Option RasaError :=
  if 1 < (tokenizerNodeTypes v).length then
    some (.moreThanOneTokenizer (tokenizerNodeTypes v))
  else none

/-- The configurations of the featurizer-typed schema nodes. -/
def featurizerConfigs (v : DefaultV1RecipeValidator) : List Config :=
  (v.graphSchema.nodes.filter (fun n => isFeaturizer n.uses)).map (fun n => n.config)

/-- Embedding of _raise_if_featurizers_are_not_compatible, delegating the
actual check to the external collaborator. -/
def raiseIfFeaturizersAreNotCompatible (ext : Externals) (v : DefaultV1RecipeValidator) :
    Option RasaError :=
  if ext.featurizersCompatible (featurizerConfigs v) then none
  else some .incompatibleFeaturizers

/-- The trainable extractors present in the configuration (the intersection
of the component-type set with TRAINABLE_EXTRACTORS). -/
def trainableExtractorsInConfig (v : DefaultV1RecipeValidator) : List ComponentType :=
  (componentTypes v).filter (fun t => TRAINABLE_EXTRACTORS.contains t)

/-- Embedding of _warn_of_competing_extractors. -/
def warnOfCompetingExtractors (v : DefaultV1RecipeValidator) : List Warning :=
  if 1 < (trainableExtractorsInConfig v).length then
    [.competingExtractors (trainableExtractorsInConfig v)]
  else []

/-- Embedding of _warn_of_competition_with_regex_extractor. -/
def warnOfCompetitionWithRegexExtractor (v : DefaultV1RecipeValidator)
    (trainingData : TrainingData) : List Warning :=
  let presentGeneralExtractors := trainableExtractorsInConfig v
  let hasGeneralExtractors := 0 < presentGeneralExtractors.length
  let hasRegexExtractor := (componentTypes v).contains .regexEntityExtractor
  let regexEntityTypes := dedupFirst (trainingData.regexFeatures.map (fun rf => rf.name))
  let overlapBetweenTypes := trainingData.entities.filter (fun e => regexEntityTypes.contains e)
  let hasOverlap := 0 < overlapBetweenTypes.length
  if hasGeneralExtractors && hasRegexExtractor && hasOverlap then
    [.competitionWithRegexExtractor presentGeneralExtractors overlapBetweenTypes]
  else []

/-- Whether the component-type set is disjoint from the given list
(Python's set.isdisjoint). -/
def componentTypesDisjointFrom (v : DefaultV1RecipeValidator) (ts : List ComponentType) : Bool :=
  ts.all (fun t => !(componentTypes v).contains t)

/-- Embedding of the nested lookup-table branch of
_warn_if_some_training_data_is_unused: with lookup tables present, either no
pattern-consuming component is configured at all, or a CRF extractor is
present and none of its feature lists contains the pattern feature. -/
def lookupTableWarnings (v : DefaultV1RecipeValidator) (trainingData : TrainingData) :
    List Warning :=
  if !trainingData.lookupTables.isEmpty then
    if componentTypesDisjointFrom v [.crfEntityExtractor, .dietClassifier] then
      [.unusedLookupTablesNoPatternConsumer]
    else if (componentTypes v).contains .crfEntityExtractor then
      let crfSchemaNodes :=
        v.graphSchema.nodes.filter (fun n => n.uses == .crfEntityExtractor)
      let hasPatternFeature :=
        crfSchemaNodes.any (fun crf =>
          crf.config.features.any (fun featureList => featureList.contains "pattern"))
      if !hasPatternFeature then [.crfMissingPatternFeature] else []
    else []
  else []

/-- Embedding of _warn_if_some_training_data_is_unused. -/
def warnIfSomeTrainingDataIsUnused (v : DefaultV1RecipeValidator)
    (trainingData : TrainingData) : List Warning :=
  (if !trainingData.responseExamples.isEmpty
      && !(componentTypes v).contains .responseSelector then
    [.unusedResponseData]
  else [])
  ++
  (if !trainingData.entityExamples.isEmpty
      && componentTypesDisjointFrom v TRAINABLE_EXTRACTORS then
    [.unusedEntityData]
  else [])
  ++
  (if !trainingData.entityExamples.isEmpty
      && componentTypesDisjointFrom v [.dietClassifier, .crfEntityExtractor] then
    if trainingData.entityRolesGroupsUsed then [.unusedEntityRolesGroupsData] else []
  else [])
  ++
  (if !trainingData.regexFeatures.isEmpty
      && componentTypesDisjointFrom v [.regexFeaturizer, .regexEntityExtractor] then
    [.unusedRegexData]
  else [])
  ++
  (if !trainingData.lookupTables.isEmpty
      && componentTypesDisjointFrom v [.regexFeaturizer, .regexEntityExtractor] then
    [.unusedLookupTablesNoRegexComponent]
  else [])
  ++
  lookupTableWarnings v trainingData
  ++
  (if !trainingData.entitySynonyms.isEmpty
      && !(componentTypes v).contains .entitySynonymMapper then
    [.unusedSynonymsData]
  else [])

/-- Embedding of _validate_nlu: the two hard checks run first, then the
advisory checks accumulate their warnings. -/
def validateNlu (ext : Externals) (v : DefaultV1RecipeValidator)
    (trainingData : TrainingData) : List Warning × Option RasaError :=
  match raiseIfMoreThanOneTokenizer v with
  | some e => ([], some e)
  | none =>
    match raiseIfFeaturizersAreNotCompatible ext v with
    | some e => ([], some e)
    | none =>
      (warnOfCompetingExtractors v
        ++ warnOfCompetitionWithRegexExtractor v trainingData
        ++ warnIfSomeTrainingDataIsUnused v trainingData, none)

/-- Embedding of _warn_if_no_rule_policy_is_contained. -/
def warnIfNoRulePolicyIsContained (v : DefaultV1RecipeValidator) : List Warning :=
  if !(policySchemaNodes v).any (fun n => n.uses == .rulePolicy) then
    [.noRulePolicy]
  else []

/-- Embedding of _raise_if_domain_contains_form_names_but_no_rule_policy_given. -/
def raiseIfDomainContainsFormNamesButNoRulePolicyGiven
    (v : DefaultV1RecipeValidator) (domain : Domain) : Option RasaError :=
  let containsRulePolicy := v.graphSchema.nodes.any (fun n => n.uses == .rulePolicy)
  if !domain.formNames.isEmpty && !containsRulePolicy then
    some .formsButNoRulePolicy
  else none

/-- Embedding of _raise_if_a_rule_policy_is_incompatible_with_domain: the
external compatibility check runs on the configuration of every rule-policy
node; any failure surfaces as a domain error. -/
def raiseIfARulePolicyIsIncompatibleWithDomain (ext : Externals)
    (v : DefaultV1RecipeValidator) (domain : Domain) : Option RasaError :=
  if v.graphSchema.nodes.any (fun n =>
      n.uses == .rulePolicy && !ext.rulePolicyCompatibleWithDomain n.config domain) then
    some .rulePolicyIncompatibleWithDomain
  else none

/-- The effective priority of a policy node: its configured priority, or the
default priority of its policy class when absent. -/
def effectivePriority (n : SchemaNode) : Int :=
  n.config.priority.getD (defaultPriority n.uses)

/-- The policy types of the given nodes whose effective priority equals p
(one value group of the priority dictionary built by
_warn_if_priorities_are_not_unique). -/
def priorityGroup (ps : List SchemaNode) (p : Int) : List ComponentType :=
  (ps.filter (fun n => effectivePriority n == p)).map (fun n => n.uses)

/-- The per-priority loop of _warn_if_priorities_are_not_unique: one warning
for every priority shared by more than one policy node. -/
def samePriorityWarnings (ps : List SchemaNode) : List Int → List Warning
  | [] => []
  | p :: rest =>
    (if 1 < (priorityGroup ps p).length then [.samePriority (priorityGroup ps p) p] else [])
      ++ samePriorityWarnings ps rest

/-- Embedding of _warn_if_priorities_are_not_unique: the priority dictionary
keys appear in first-occurrence order of the effective priorities. -/
def warnIfPrioritiesAreNotUnique (v : DefaultV1RecipeValidator) : List Warning :=
  samePriorityWarnings (policySchemaNodes v)
    (dedupFirst ((policySchemaNodes v).map effectivePriority))

/-- Whether some policy node consumes rule-type training data (the
consuming_rule_data test of _warn_if_rule_based_data_is_unused_or_missing). -/
def consumingRuleData (v : DefaultV1RecipeValidator) : Bool :=
  (policySchemaNodes v).any (fun n =>
    n.uses.supportedData == SupportedData.ruleData
      || n.uses.supportedData == SupportedData.mlAndRuleData)

/-- Whether the story graph contains a rule step (the contains_rule_tracker
test of _warn_if_rule_based_data_is_unused_or_missing). -/
def containsRuleTracker (sg : StoryGraph) : Bool :=
  sg.orderedSteps.any (fun s => s == StoryStep.ruleStep)

/-- Embedding of _warn_if_rule_based_data_is_unused_or_missing. -/
def warnIfRuleBasedDataIsUnusedOrMissing (v : DefaultV1RecipeValidator)
    (storyGraph : StoryGraph) : List Warning :=
  if consumingRuleData v && !containsRuleTracker storyGraph then
    [.ruleDataIsMissing]
  else if !consumingRuleData v && containsRuleTracker storyGraph then
    [.ruleDataIsUnused]
  else []

/-- Embedding of _validate_core: without policy nodes the pass stops after
possibly warning about unused story data; otherwise the no-rule-policy
advisory runs first, then the two hard checks, then the remaining advisory
checks. -/
def validateCore (ext : Externals) (v : DefaultV1RecipeValidator)
    (storyGraph : StoryGraph) (domain : Domain) : List Warning × Option RasaError :=
  if (policySchemaNodes v).isEmpty then
    ((if !storyGraph.storySteps.isEmpty then [.noPoliciesButStories] else []), none)
  else
    match raiseIfDomainContainsFormNamesButNoRulePolicyGiven v domain with
    | some e => (warnIfNoRulePolicyIsContained v, some e)
    | none =>
      match raiseIfARulePolicyIsIncompatibleWithDomain ext v domain with
      | some e => (warnIfNoRulePolicyIsContained v, some e)
      | none =>
        (warnIfNoRulePolicyIsContained v ++ warnIfPrioritiesAreNotUnique v
          ++ warnIfRuleBasedDataIsUnusedOrMissing v storyGraph, none)

/-- Embedding of DefaultV1RecipeValidator.validate: the NLU pass runs on the
importer's NLU data, then the core pass runs on its story graph and domain;
the result pairs the advisory warnings emitted before completion or failure
with either the raised error or the importer itself (the pass-through
return). -/
def DefaultV1RecipeValidator.validate (ext : Externals) (v : DefaultV1RecipeValidator)
    (importer : TrainingDataImporter) :
    List Warning × Except RasaError TrainingDataImporter :=
  match validateNlu ext v importer.getNluData with
  | (ws, some e) => (ws, .error e)
  | (ws, none) =>
    match validateCore ext v importer.getStories importer.getDomain with
    | (ws2, some e) => (ws ++ ws2, .error e)
    | (ws2, none) => (ws ++ ws2, .ok importer)

/-! ## Concrete schemas, importers and documents used by the theorems -/

/-- Oracles that accept every delegated compatibility check. -/
def trueExternals : Externals := ⟨fun _ => true, fun _ _ => true⟩

/-- A configuration with no explicit priority and no feature lists. -/
def emptyConfig : Config := ⟨none, []⟩

/-- Training data with no examples, synonyms, regexes or lookup tables. -/
def emptyTrainingData : TrainingData := ⟨[], [], [], []⟩

/-- An importer with empty training data, no stories and no forms. -/
def emptyImporter : TrainingDataImporter := ⟨emptyTrainingData, ⟨[]⟩, ⟨[]⟩⟩

/-- A schema with two tokenizer nodes. -/
def twoTokenizerValidator : DefaultV1RecipeValidator :=
  ⟨⟨[⟨.whitespaceTokenizer, emptyConfig⟩, ⟨.spacyTokenizer, emptyConfig⟩]⟩⟩

/-- A schema containing a single tokenizer node and nothing else. -/
def tokenizerOnlyValidator : DefaultV1RecipeValidator :=
  ⟨⟨[⟨.whitespaceTokenizer, emptyConfig⟩]⟩⟩

/-- An importer whose domain declares one form. -/
def formDomainImporter : TrainingDataImporter :=
  ⟨emptyTrainingData, ⟨[]⟩, ⟨["restaurant_form"]⟩⟩

/-- A schema with a single TED policy node. -/
def tedOnlyValidator : DefaultV1RecipeValidator := ⟨⟨[⟨.tedPolicy, emptyConfig⟩]⟩⟩

/-- A schema with the CRF extractor, the DIET classifier and a TED policy. -/
def crfDietTedValidator : DefaultV1RecipeValidator :=
  ⟨⟨[⟨.crfEntityExtractor, emptyConfig⟩, ⟨.dietClassifier, emptyConfig⟩,
    ⟨.tedPolicy, emptyConfig⟩]⟩⟩

/-- A schema with the CRF extractor and the DIET classifier only. -/
def crfDietValidator : DefaultV1RecipeValidator :=
  ⟨⟨[⟨.crfEntityExtractor, emptyConfig⟩, ⟨.dietClassifier, emptyConfig⟩]⟩⟩

/-- A schema with the DIET classifier and the regex entity extractor. -/
def dietRegexValidator : DefaultV1RecipeValidator :=
  ⟨⟨[⟨.dietClassifier, emptyConfig⟩, ⟨.regexEntityExtractor, emptyConfig⟩]⟩⟩

/-- An importer whose training data holds one populated lookup table. -/
def lookupImporter : TrainingDataImporter :=
  ⟨⟨[], [], [], [⟨"colors", ["red", "green"]⟩]⟩, ⟨[]⟩, ⟨[]⟩⟩

/-- A schema with one CRF extractor node whose feature lists lack the
pattern feature. -/
def crfNoPatternValidator : DefaultV1RecipeValidator :=
  ⟨⟨[⟨.crfEntityExtractor, ⟨none, [["low", "title"]]⟩⟩]⟩⟩

/-- A schema with two policy nodes explicitly configured to priority 1. -/
def twoSamePriorityValidator : DefaultV1RecipeValidator :=
  ⟨⟨[⟨.tedPolicy, ⟨some 1, []⟩⟩, ⟨.memoizationPolicy, ⟨some 1, []⟩⟩]⟩⟩

/-- A schema with a single rule-policy node. -/
def rulePolicyValidator : DefaultV1RecipeValidator := ⟨⟨[⟨.rulePolicy, emptyConfig⟩]⟩⟩

/-- An importer whose story graph holds one rule step. -/
def ruleStoryImporter : TrainingDataImporter := ⟨emptyTrainingData, ⟨[.ruleStep]⟩, ⟨[]⟩⟩

/-- A freshly created reader instance. -/
def emptyReader : RasaYAMLReader := ⟨[], [], [], []⟩

/-- The parsed document of claim C5: an nlu section with one intent block
for greet whose examples are the two-line bullet string. -/
def greetIntentDoc : List (String × YamlValue) :=
  [("nlu", .list [.dict [("intent", .str "greet"),
    ("examples", .str "- hello\n- hi")]])]

/-- The training data produced by reads on the document of claim C5. -/
def greetTrainingData : TrainingData := (emptyReader.reads greetIntentDoc).1

/-- Claim C5 exactly as stated: the parsed training data holds exactly two
examples whose texts are hello and hi, each labeled greet, with zero
entities, synonyms, regex features and lookup tables. -/
def c5ClaimAsStated : Prop :=
  greetTrainingData.trainingExamples.map Message.text = ["hello", "hi"]
  ∧ greetTrainingData.trainingExamples.map Message.intent = ["greet", "greet"]
  ∧ greetTrainingData.trainingExamples.all (fun m => m.entities.isEmpty) = true
  ∧ greetTrainingData.entitySynonyms = []
  ∧ greetTrainingData.regexFeatures = []
  ∧ greetTrainingData.lookupTables = []

/-- The keys that dispatch to a parsing routine inside _parse_nlu. -/
def isNluDispatchKey (k : String) : Bool :=
  k == KEY_INTENT || k == KEY_SYNONYM || k == KEY_REGEX || k == KEY_LOOKUP

/-! ## Helper lemmas -/

theorem mem_dedupFirstAux [DecidableEq α] (a : α) :
    ∀ (l seen : List α), a ∈ dedupFirstAux l seen ↔ a ∈ l ∧ a ∉ seen := by
  intro l
  induction l with
  | nil => intro seen; simp [dedupFirstAux]
  | cons x xs ih =>
    intro seen
    by_cases hx : x ∈ seen
    · simp only [dedupFirstAux, if_pos hx, ih, List.mem_cons]
      constructor
      · rintro ⟨h1, h2⟩; exact ⟨Or.inr h1, h2⟩
      · rintro ⟨h1 | h1, h2⟩
        · exact absurd (h1 ▸ hx) h2
        · exact ⟨h1, h2⟩
    · simp only [dedupFirstAux, if_neg hx, List.mem_cons, ih]
      constructor
      · rintro (rfl | ⟨h1, h2⟩)
        · exact ⟨Or.inl rfl, hx⟩
        · exact ⟨Or.inr h1, fun hs => h2 (Or.inr hs)⟩
      · rintro ⟨rfl | h1, h2⟩
        · exact Or.inl rfl
        · by_cases hax : a = x
          · exact Or.inl hax
          · exact Or.inr ⟨h1, fun h => h.elim hax h2⟩

theorem nodup_dedupFirstAux [DecidableEq α] :
    ∀ (l seen : List α), (dedupFirstAux l seen).Nodup := by
  intro l
  induction l with
  | nil => intro seen; simp [dedupFirstAux]
  | cons x xs ih =>
    intro seen
    by_cases hx : x ∈ seen
    · simpa [dedupFirstAux, if_pos hx] using ih seen
    · simp only [dedupFirstAux, if_neg hx, List.nodup_cons]
      refine ⟨fun hmem => ?_, ih (x :: seen)⟩
      exact ((mem_dedupFirstAux x xs (x :: seen)).mp hmem).2 (List.mem_cons_self x seen)

theorem mem_dedupFirst [DecidableEq α] (a : α) (l : List α) :
    a ∈ dedupFirst l ↔ a ∈ l := by
  simp [dedupFirst, mem_dedupFirstAux]

theorem nodup_dedupFirst [DecidableEq α] (l : List α) : (dedupFirst l).Nodup :=
  nodup_dedupFirstAux l []

theorem samePriorityWarnings_eq_nil (ps : List SchemaNode) :
    ∀ prios : List Int, (∀ q ∈ prios, (priorityGroup ps q).length ≤ 1) →
      samePriorityWarnings ps prios = [] := by
  intro prios
  induction prios with
  | nil => intro _; rfl
  | cons q rest ih =>
    intro h
    have hq := h q (List.mem_cons_self q rest)
    have hrest := ih (fun r hr => h r (List.mem_cons_of_mem q hr))
    simp only [samePriorityWarnings, hrest, List.append_nil]
    rw [if_neg]
    omega

theorem samePriorityWarnings_eq_single (ps : List SchemaNode) (p : Int) :
    ∀ prios : List Int, prios.Nodup → p ∈ prios →
      1 < (priorityGroup ps p).length →
      (∀ q ∈ prios, q ≠ p → (priorityGroup ps q).length ≤ 1) →
      samePriorityWarnings ps prios = [.samePriority (priorityGroup ps p) p] := by
  intro prios
  induction prios with
  | nil => intro _ hmem; cases hmem
  | cons q rest ih =>
    intro hnd hmem hp hq
    by_cases hqp : q = p
    · subst hqp
      have hrest : ∀ r ∈ rest, (priorityGroup ps r).length ≤ 1 := by
        intro r hr
        have hne : r ≠ q := fun h => (List.nodup_cons.mp hnd).1 (h ▸ hr)
        exact hq r (List.mem_cons_of_mem q hr) hne
      simp only [samePriorityWarnings, if_pos hp,
        samePriorityWarnings_eq_nil ps rest hrest, List.append_nil]
    · have hmem2 : p ∈ rest := by
        cases List.mem_cons.mp hmem with
        | inl h => exact absurd h.symm hqp
        | inr h => exact h
      have hql := hq q (List.mem_cons_self q rest) hqp
      have htail := ih (List.nodup_cons.mp hnd).2 hmem2 hp
        (fun r hr hrp => hq r (List.mem_cons_of_mem q hr) hrp)
      simp only [samePriorityWarnings, htail]
      rw [if_neg]
      · simp
      · omega

theorem mem_map_effectivePriority_of_group (ps : List SchemaNode) (p : Int)
    (h : 0 < (priorityGroup ps p).length) : p ∈ ps.map effectivePriority := by
  unfold priorityGroup at h
  rw [List.length_map] at h
  obtain ⟨n, hn⟩ := List.exists_mem_of_length_pos h
  have hmem := List.mem_filter.mp hn
  exact List.mem_map.mpr ⟨n, hmem.1, by simpa using hmem.2⟩

theorem warnPriorities_eq_single (v : DefaultV1RecipeValidator) (p : Int)
    (hp : (priorityGroup (policySchemaNodes v) p).length = 2)
    (hq : ∀ q ∈ (policySchemaNodes v).map effectivePriority, q ≠ p →
      (priorityGroup (policySchemaNodes v) q).length ≤ 1) :
    warnIfPrioritiesAreNotUnique v
      = [.samePriority (priorityGroup (policySchemaNodes v) p) p] := by
  unfold warnIfPrioritiesAreNotUnique
  refine samePriorityWarnings_eq_single _ p _ (nodup_dedupFirst _) ?_ (by omega) ?_
  · exact (mem_dedupFirst _ _).mpr (mem_map_effectivePriority_of_group _ p (by omega))
  · intro q hqmem hqp
    exact hq q ((mem_dedupFirst _ _).mp hqmem) hqp

theorem filter_ite_singleton (pr : Warning → Bool) (c : Prop) [Decidable c]
    (w : Warning) (hw : pr w = false) :
    (if c then [w] else []).filter pr = [] := by
  split
  · simp [List.filter_cons, hw]
  · rfl

theorem filter_warnOfCompetingExtractors (pr : Warning → Bool)
    (h : ∀ ts, pr (.competingExtractors ts) = false) (v : DefaultV1RecipeValidator) :
    (warnOfCompetingExtractors v).filter pr = [] := by
  unfold warnOfCompetingExtractors
  exact filter_ite_singleton pr _ _ (h _)

theorem filter_warnOfCompetitionWithRegexExtractor (pr : Warning → Bool)
    (h : ∀ ts ov, pr (.competitionWithRegexExtractor ts ov) = false)
    (v : DefaultV1RecipeValidator) (td : TrainingData) :
    (warnOfCompetitionWithRegexExtractor v td).filter pr = [] := by
  unfold warnOfCompetitionWithRegexExtractor
  exact filter_ite_singleton pr _ _ (h _ _)

theorem filter_warnIfSomeTrainingDataIsUnused (pr : Warning → Bool)
    (h1 : pr .unusedResponseData = false)
    (h2 : pr .unusedEntityData = false)
    (h3 : pr .unusedEntityRolesGroupsData = false)
    (h4 : pr .unusedRegexData = false)
    (h5 : pr .unusedLookupTablesNoRegexComponent = false)
    (h6 : pr .unusedLookupTablesNoPatternConsumer = false)
    (h7 : pr .crfMissingPatternFeature = false)
    (h8 : pr .unusedSynonymsData = false)
    (v : DefaultV1RecipeValidator) (td : TrainingData) :
    (warnIfSomeTrainingDataIsUnused v td).filter pr = [] := by
  have hl : (lookupTableWarnings v td).filter pr = [] := by
    unfold lookupTableWarnings
    repeat' split
    all_goals simp [List.filter_cons, h6, h7]
  unfold warnIfSomeTrainingDataIsUnused
  simp only [List.filter_append, hl,
    filter_ite_singleton pr _ _ h1, filter_ite_singleton pr _ _ h2,
    filter_ite_singleton pr _ _ h4, filter_ite_singleton pr _ _ h5,
    filter_ite_singleton pr _ _ h8, List.append_nil, List.nil_append]
  repeat' split
  all_goals simp [List.filter_cons, h3]

theorem filter_warnIfNoRulePolicyIsContained (pr : Warning → Bool)
    (h : pr .noRulePolicy = false) (v : DefaultV1RecipeValidator) :
    (warnIfNoRulePolicyIsContained v).filter pr = [] := by
  unfold warnIfNoRulePolicyIsContained
  exact filter_ite_singleton pr _ _ h

theorem filter_samePriorityWarnings (pr : Warning → Bool)
    (h : ∀ g p, pr (.samePriority g p) = false) (ps : List SchemaNode) :
    ∀ prios, (samePriorityWarnings ps prios).filter pr = [] := by
  intro prios
  induction prios with
  | nil => rfl
  | cons q rest ih =>
    simp only [samePriorityWarnings, List.filter_append, ih, List.append_nil]
    exact filter_ite_singleton pr _ _ (h _ _)

theorem filter_warnIfRuleBasedDataIsUnusedOrMissing (pr : Warning → Bool)
    (h1 : pr .ruleDataIsMissing = false) (h2 : pr .ruleDataIsUnused = false)
    (v : DefaultV1RecipeValidator) (sg : StoryGraph) :
    (warnIfRuleBasedDataIsUnusedOrMissing v sg).filter pr = [] := by
  unfold warnIfRuleBasedDataIsUnusedOrMissing
  repeat' split
  all_goals simp [List.filter_cons, h1, h2]

theorem filter_validateNlu (pr : Warning → Bool)
    (hc : ∀ ts, pr (.competingExtractors ts) = false)
    (hcr : ∀ ts ov, pr (.competitionWithRegexExtractor ts ov) = false)
    (h1 : pr .unusedResponseData = false)
    (h2 : pr .unusedEntityData = false)
    (h3 : pr .unusedEntityRolesGroupsData = false)
    (h4 : pr .unusedRegexData = false)
    (h5 : pr .unusedLookupTablesNoRegexComponent = false)
    (h6 : pr .unusedLookupTablesNoPatternConsumer = false)
    (h7 : pr .crfMissingPatternFeature = false)
    (h8 : pr .unusedSynonymsData = false)
    (ext : Externals) (v : DefaultV1RecipeValidator) (td : TrainingData) :
    (validateNlu ext v td).1.filter pr = [] := by
  unfold validateNlu
  cases raiseIfMoreThanOneTokenizer v with
  | some e => rfl
  | none =>
    cases raiseIfFeaturizersAreNotCompatible ext v with
    | some e => rfl
    | none =>
      simp only [List.filter_append,
        filter_warnOfCompetingExtractors pr hc v,
        filter_warnOfCompetitionWithRegexExtractor pr hcr v td,
        filter_warnIfSomeTrainingDataIsUnused pr h1 h2 h3 h4 h5 h6 h7 h8 v td,
        List.append_nil]

theorem filter_validateCore (pr : Warning → Bool)
    (hnp : pr .noPoliciesButStories = false)
    (hnr : pr .noRulePolicy = false)
    (hsp : ∀ g p, pr (.samePriority g p) = false)
    (hm : pr .ruleDataIsMissing = false)
    (hu : pr .ruleDataIsUnused = false)
    (ext : Externals) (v : DefaultV1RecipeValidator) (sg : StoryGraph) (d : Domain) :
    (validateCore ext v sg d).1.filter pr = [] := by
  unfold validateCore
  split
  · exact filter_ite_singleton pr _ _ hnp
  · cases raiseIfDomainContainsFormNamesButNoRulePolicyGiven v d with
    | some e => exact filter_warnIfNoRulePolicyIsContained pr hnr v
    | none =>
      cases raiseIfARulePolicyIsIncompatibleWithDomain ext v d with
      | some e => exact filter_warnIfNoRulePolicyIsContained pr hnr v
      | none =>
        unfold warnIfPrioritiesAreNotUnique
        simp only [List.filter_append,
          filter_warnIfNoRulePolicyIsContained pr hnr v,
          filter_samePriorityWarnings pr hsp (policySchemaNodes v) _,
          filter_warnIfRuleBasedDataIsUnusedOrMissing pr hm hu v sg,
          List.append_nil, List.nil_append]

theorem validateNlu_fst_of_none (ext : Externals) (v : DefaultV1RecipeValidator)
    (td : TrainingData) :
    (validateNlu ext v td).2 = none →
    (validateNlu ext v td).1 =
      warnOfCompetingExtractors v ++ warnOfCompetitionWithRegexExtractor v td
        ++ warnIfSomeTrainingDataIsUnused v td := by
  unfold validateNlu
  cases raiseIfMoreThanOneTokenizer v with
  | some e => intro h; simp at h
  | none =>
    cases raiseIfFeaturizersAreNotCompatible ext v with
    | some e => intro h; simp at h
    | none => intro _; rfl

theorem validateCore_fst_of_none (ext : Externals) (v : DefaultV1RecipeValidator)
    (sg : StoryGraph) (d : Domain) (hps : (policySchemaNodes v).isEmpty = false) :
    (validateCore ext v sg d).2 = none →
    (validateCore ext v sg d).1 =
      warnIfNoRulePolicyIsContained v ++ warnIfPrioritiesAreNotUnique v
        ++ warnIfRuleBasedDataIsUnusedOrMissing v sg := by
  unfold validateCore
  rw [hps]
  simp only [Bool.false_eq_true, if_false]
  cases raiseIfDomainContainsFormNamesButNoRulePolicyGiven v d with
  | some e => intro h; simp at h
  | none =>
    cases raiseIfARulePolicyIsIncompatibleWithDomain ext v d with
    | some e => intro h; simp at h
    | none => intro _; rfl

theorem validate_ok_parts (ext : Externals) (v : DefaultV1RecipeValidator)
    (imp : TrainingDataImporter)
    (h : (DefaultV1RecipeValidator.validate ext v imp).2.isOk = true) :
    (validateNlu ext v imp.getNluData).2 = none ∧
    (validateCore ext v imp.getStories imp.getDomain).2 = none ∧
    (DefaultV1RecipeValidator.validate ext v imp).1 =
      (validateNlu ext v imp.getNluData).1
        ++ (validateCore ext v imp.getStories imp.getDomain).1 := by
  revert h
  unfold DefaultV1RecipeValidator.validate
  cases hnlu : validateNlu ext v imp.getNluData with
  | mk ws oe =>
    cases oe with
    | some e => intro h; simp [Except.isOk, Except.toBool] at h
    | none =>
      cases hcore : validateCore ext v imp.getStories imp.getDomain with
      | mk ws2 oe2 =>
        cases oe2 with
        | some e => intro h; simp [Except.isOk, Except.toBool] at h
        | none => intro _; exact ⟨rfl, rfl, rfl⟩

theorem validate_fst_contains_nlu_warning (ext : Externals)
    (v : DefaultV1RecipeValidator) (imp : TrainingDataImporter) (w : Warning)
    (hw : w ∈ (validateNlu ext v imp.getNluData).1) :
    w ∈ (DefaultV1RecipeValidator.validate ext v imp).1 := by
  revert hw
  unfold DefaultV1RecipeValidator.validate
  cases validateNlu ext v imp.getNluData with
  | mk ws oe =>
    cases oe with
    | some e => intro hw; simpa using hw
    | none =>
      cases validateCore ext v imp.getStories imp.getDomain with
      | mk ws2 oe2 =>
        cases oe2 with
        | some e => intro hw; exact List.mem_append_left ws2 (by simpa using hw)
        | none => intro hw; exact List.mem_append_left ws2 (by simpa using hw)

/-! ## Claims -/

/-- C1: for every graph schema containing more than one schema node whose
component type is a tokenizer subclass, validate raises the
more-than-one-tokenizer InvalidConfigException (a configuration error),
regardless of the importer's training data, story graph and domain and of
the external collaborators. -/
theorem C1_validate_raises_on_multiple_tokenizers (ext : Externals)
    (v : DefaultV1RecipeValidator) (imp : TrainingDataImporter)
    (h : 1 < (tokenizerNodeTypes v).length) :
    (DefaultV1RecipeValidator.validate ext v imp).2
        = .error (.moreThanOneTokenizer (tokenizerNodeTypes v))
      ∧ (RasaError.moreThanOneTokenizer (tokenizerNodeTypes v)).isConfigurationError
          = true := by
  have hr : raiseIfMoreThanOneTokenizer v
      = some (.moreThanOneTokenizer (tokenizerNodeTypes v)) := by
    unfold raiseIfMoreThanOneTokenizer
    rw [if_pos h]
  have hnlu : validateNlu ext v imp.getNluData
      = ([], some (.moreThanOneTokenizer (tokenizerNodeTypes v))) := by
    unfold validateNlu
    rw [hr]
  refine ⟨?_, rfl⟩
  unfold DefaultV1RecipeValidator.validate
  simp only [hnlu]

/-- Witness for C1: the schema with two tokenizer nodes. -/
theorem C1_witness :
    1 < (tokenizerNodeTypes twoTokenizerValidator).length
      ∧ ((DefaultV1RecipeValidator.validate trueExternals twoTokenizerValidator
            emptyImporter).2
          = .error (.moreThanOneTokenizer (tokenizerNodeTypes twoTokenizerValidator))
        ∧ (RasaError.moreThanOneTokenizer
            (tokenizerNodeTypes twoTokenizerValidator)).isConfigurationError = true) :=
  ⟨by decide, C1_validate_raises_on_multiple_tokenizers trueExternals
    twoTokenizerValidator emptyImporter (by decide)⟩

/-- C2 counterexample: a schema with a single tokenizer node and no policy
node, validated against a domain declaring one form, returns the importer
without raising any error; this refutes the quantification of C2 over
schemas that contain no policy nodes at all. -/
theorem C2_counterexample :
    formDomainImporter.domain.formNames ≠ []
      ∧ (∀ n ∈ tokenizerOnlyValidator.graphSchema.nodes,
          n.uses ≠ ComponentType.rulePolicy)
      ∧ (DefaultV1RecipeValidator.validate trueExternals tokenizerOnlyValidator
          formDomainImporter).2 = .ok formDomainImporter :=
  ⟨by decide, by decide, rfl⟩

/-- C2 amended: for every schema with at least one policy node, a domain
declaring at least one form and no rule-policy node make validate raise the
InvalidDomain error, provided the NLU pass raises no configuration error
(at most one tokenizer and compatible featurizer configurations). -/
theorem C2_amended_forms_without_rule_policy_raise (ext : Externals)
    (v : DefaultV1RecipeValidator) (imp : TrainingDataImporter)
    (htok : (tokenizerNodeTypes v).length ≤ 1)
    (hfeat : ext.featurizersCompatible (featurizerConfigs v) = true)
    (hpol : policySchemaNodes v ≠ [])
    (hnorule : ∀ n ∈ v.graphSchema.nodes, n.uses ≠ ComponentType.rulePolicy)
    (hforms : imp.getDomain.formNames ≠ []) :
    (DefaultV1RecipeValidator.validate ext v imp).2 = .error .formsButNoRulePolicy
      ∧ RasaError.formsButNoRulePolicy.isDomainError = true := by
  have htok2 : raiseIfMoreThanOneTokenizer v = none := by
    unfold raiseIfMoreThanOneTokenizer
    rw [if_neg]
    omega
  have hfeat2 : raiseIfFeaturizersAreNotCompatible ext v = none := by
    unfold raiseIfFeaturizersAreNotCompatible
    rw [if_pos hfeat]
  have hany : v.graphSchema.nodes.any (fun n => n.uses == ComponentType.rulePolicy)
      = false := by
    rw [Bool.eq_false_iff]
    intro hcontra
    obtain ⟨n, hn, hbeq⟩ := List.any_eq_true.mp hcontra
    exact hnorule n hn (by simpa using hbeq)
  have hne : imp.getDomain.formNames.isEmpty = false := by
    simp [List.isEmpty_iff, hforms]
  have hforms2 : raiseIfDomainContainsFormNamesButNoRulePolicyGiven v imp.getDomain
      = some .formsButNoRulePolicy := by
    unfold raiseIfDomainContainsFormNamesButNoRulePolicyGiven
    simp [hany, hne]
  have hpol2 : (policySchemaNodes v).isEmpty = false := by
    simp [List.isEmpty_iff, hpol]
  have hnlu : validateNlu ext v imp.getNluData
      = (warnOfCompetingExtractors v
          ++ warnOfCompetitionWithRegexExtractor v imp.getNluData
          ++ warnIfSomeTrainingDataIsUnused v imp.getNluData, none) := by
    unfold validateNlu
    rw [htok2, hfeat2]
  have hcore : validateCore ext v imp.getStories imp.getDomain
      = (warnIfNoRulePolicyIsContained v, some .formsButNoRulePolicy) := by
    unfold validateCore
    rw [hpol2]
    simp only [Bool.false_eq_true, if_false]
    rw [hforms2]
  refine ⟨?_, rfl⟩
  unfold DefaultV1RecipeValidator.validate
  simp only [hnlu, hcore]

/-- Witness for the amended C2: a single TED policy, no rule policy, and a
domain with one form. -/
theorem C2_amended_witness :
    ((tokenizerNodeTypes tedOnlyValidator).length ≤ 1
      ∧ policySchemaNodes tedOnlyValidator ≠ []
      ∧ formDomainImporter.getDomain.formNames ≠ [])
    ∧ ((DefaultV1RecipeValidator.validate trueExternals tedOnlyValidator
          formDomainImporter).2 = .error .formsButNoRulePolicy
        ∧ RasaError.formsButNoRulePolicy.isDomainError = true) :=
  ⟨⟨by decide, by decide, by decide⟩,
    C2_amended_forms_without_rule_policy_raise trueExternals tedOnlyValidator
      formDomainImporter (by decide) rfl (by decide) (by decide) (by decide)⟩

/-- C3 counterexample: the schema with CRF, DIET and a TED policy has at
least two trainable extractors and conflict-free (empty) training data, and
its validate run completes without raising, yet it emits two advisories
(competing extractors and no rule policy), not exactly one in total. -/
theorem C3_counterexample :
    2 ≤ (trainableExtractorsInConfig crfDietTedValidator).length
      ∧ (DefaultV1RecipeValidator.validate trueExternals crfDietTedValidator
          emptyImporter).2 = .ok emptyImporter
      ∧ (DefaultV1RecipeValidator.validate trueExternals crfDietTedValidator
          emptyImporter).1.length = 2 :=
  ⟨by decide, rfl, by decide⟩

/-- C3 amended: on a validate run that completes without raising, a schema
whose component-type set contains at least two trainable extractors emits
the competing-extractors advisory exactly once, naming the trainable
extractors present; other, unrelated advisories may additionally be
emitted. -/
theorem C3_amended_exactly_one_competing_advisory (ext : Externals)
    (v : DefaultV1RecipeValidator) (imp : TrainingDataImporter)
    (hok : (DefaultV1RecipeValidator.validate ext v imp).2.isOk = true)
    (h2 : 2 ≤ (trainableExtractorsInConfig v).length) :
    (DefaultV1RecipeValidator.validate ext v imp).1.filter
        Warning.isCompetingExtractors
      = [.competingExtractors (trainableExtractorsInConfig v)] := by
  obtain ⟨hnlu, hcore, hfst⟩ := validate_ok_parts ext v imp hok
  rw [hfst, List.filter_append]
  rw [validateNlu_fst_of_none ext v imp.getNluData hnlu]
  rw [List.filter_append, List.filter_append]
  have hcomp : (warnOfCompetingExtractors v).filter Warning.isCompetingExtractors
      = [.competingExtractors (trainableExtractorsInConfig v)] := by
    unfold warnOfCompetingExtractors
    rw [if_pos (by omega)]
    rfl
  rw [hcomp,
    filter_warnOfCompetitionWithRegexExtractor _ (fun _ _ => rfl) v _,
    filter_warnIfSomeTrainingDataIsUnused _ rfl rfl rfl rfl rfl rfl rfl rfl v _,
    filter_validateCore _ rfl rfl (fun _ _ => rfl) rfl rfl ext v _ _]
  simp

/-- Witness for the amended C3: CRF plus DIET with empty data. -/
theorem C3_amended_witness :
    ((DefaultV1RecipeValidator.validate trueExternals crfDietValidator
        emptyImporter).2.isOk = true
      ∧ 2 ≤ (trainableExtractorsInConfig crfDietValidator).length)
    ∧ (DefaultV1RecipeValidator.validate trueExternals crfDietValidator
        emptyImporter).1.filter Warning.isCompetingExtractors
      = [.competingExtractors (trainableExtractorsInConfig crfDietValidator)] :=
  ⟨⟨by decide, by decide⟩,
    C3_amended_exactly_one_competing_advisory trueExternals crfDietValidator
      emptyImporter (by decide) (by decide)⟩

/-- C4 counterexample: training data with a populated lookup table, a
schema containing the DIET statistical extractor (whose configuration has
no pattern feature) and no regex featurizer; the validate run completes
without raising and emits no warning at all, in particular no
unused-lookup-table advisory. -/
theorem C4_counterexample :
    lookupImporter.getNluData.lookupTables ≠ []
      ∧ ComponentType.dietClassifier ∈ componentTypes dietRegexValidator
      ∧ TRAINABLE_EXTRACTORS.contains ComponentType.dietClassifier = true
      ∧ ComponentType.regexFeaturizer ∉ componentTypes dietRegexValidator
      ∧ DefaultV1RecipeValidator.validate trueExternals dietRegexValidator
          lookupImporter = ([], .ok lookupImporter) :=
  ⟨by decide, by decide, by decide, by decide, rfl⟩

/-- C4 amended: for every training set with at least one lookup table and
every schema containing a CRF entity extractor none of whose nodes lists
the pattern feature (and containing no regex featurizer), a run on which the
NLU pass raises no configuration error emits the lookup-table advisory
about the missing pattern feature.  The pattern check applies only to the
CRF extractor: as the counterexample shows, a DIET-only schema emits no
such advisory. -/
theorem C4_amended_crf_missing_pattern_advisory (ext : Externals)
    (v : DefaultV1RecipeValidator) (imp : TrainingDataImporter)
    (htok : (tokenizerNodeTypes v).length ≤ 1)
    (hfeat : ext.featurizersCompatible (featurizerConfigs v) = true)
    (hlookup : imp.getNluData.lookupTables ≠ [])
    (hcrf : ComponentType.crfEntityExtractor ∈ componentTypes v)
    (hnopattern : ∀ n ∈ v.graphSchema.nodes,
      n.uses = ComponentType.crfEntityExtractor →
      ∀ fl ∈ n.config.features, "pattern" ∉ fl)
    (_hnoregex : ComponentType.regexFeaturizer ∉ componentTypes v) :
    Warning.crfMissingPatternFeature
      ∈ (DefaultV1RecipeValidator.validate ext v imp).1 := by
  have h1 : imp.getNluData.lookupTables.isEmpty = false := by
    simp [List.isEmpty_iff, hlookup]
  have hcontains : (componentTypes v).contains ComponentType.crfEntityExtractor
      = true := by
    simpa using hcrf
  have h2 : componentTypesDisjointFrom v
      [ComponentType.crfEntityExtractor, ComponentType.dietClassifier] = false := by
    rw [Bool.eq_false_iff]
    intro hall
    have := (List.all_eq_true.mp hall) ComponentType.crfEntityExtractor (by simp)
    rw [hcontains] at this
    simp at this
  have h4 : ((v.graphSchema.nodes.filter
        (fun n => n.uses == ComponentType.crfEntityExtractor)).any
      (fun crf => crf.config.features.any
        (fun featureList => featureList.contains "pattern"))) = false := by
    rw [Bool.eq_false_iff]
    intro hcontra
    obtain ⟨n, hn, hpat⟩ := List.any_eq_true.mp hcontra
    have hmem := List.mem_filter.mp hn
    obtain ⟨fl, hfl, hflpat⟩ := List.any_eq_true.mp hpat
    exact hnopattern n hmem.1 (by simpa using hmem.2) fl hfl (by simpa using hflpat)
  have hlt : lookupTableWarnings v imp.getNluData
      = [Warning.crfMissingPatternFeature] := by
    unfold lookupTableWarnings
    simp [h1, h2, hcontains, h4]
    rw [if_pos hcrf, if_pos hnopattern]
  have hwu : Warning.crfMissingPatternFeature
      ∈ warnIfSomeTrainingDataIsUnused v imp.getNluData := by
    unfold warnIfSomeTrainingDataIsUnused
    rw [hlt]
    simp
  have htok2 : raiseIfMoreThanOneTokenizer v = none := by
    unfold raiseIfMoreThanOneTokenizer
    rw [if_neg]
    omega
  have hfeat2 : raiseIfFeaturizersAreNotCompatible ext v = none := by
    unfold raiseIfFeaturizersAreNotCompatible
    rw [if_pos hfeat]
  have hwnlu : Warning.crfMissingPatternFeature ∈ (validateNlu ext v imp.getNluData).1 := by
    unfold validateNlu
    rw [htok2, hfeat2]
    simp only [List.mem_append]
    exact Or.inr hwu
  exact validate_fst_contains_nlu_warning ext v imp _ hwnlu

/-- Witness for the amended C4: one CRF node without the pattern feature
and data with one lookup table. -/
theorem C4_amended_witness :
    (lookupImporter.getNluData.lookupTables ≠ []
      ∧ ComponentType.crfEntityExtractor ∈ componentTypes crfNoPatternValidator
      ∧ ComponentType.regexFeaturizer ∉ componentTypes crfNoPatternValidator)
    ∧ Warning.crfMissingPatternFeature
      ∈ (DefaultV1RecipeValidator.validate trueExternals crfNoPatternValidator
          lookupImporter).1 :=
  ⟨⟨by decide, by decide, by decide⟩,
    C4_amended_crf_missing_pattern_advisory trueExternals crfNoPatternValidator
      lookupImporter (by decide) rfl (by decide) (by decide) (by decide) (by decide)⟩

/-- C6: on a validate run that completes without raising, when exactly two
policy nodes share the same effective priority p (configured value, or the
policy class default when absent) and every other priority is held by at
most one policy node, exactly one same-priority advisory is emitted, and it
names precisely the two policy types sharing p. -/
theorem C6_same_priority_advisory (ext : Externals) (v : DefaultV1RecipeValidator)
    (imp : TrainingDataImporter) (p : Int)
    (hok : (DefaultV1RecipeValidator.validate ext v imp).2.isOk = true)
    (hp : (priorityGroup (policySchemaNodes v) p).length = 2)
    (hq : ∀ q ∈ (policySchemaNodes v).map effectivePriority, q ≠ p →
      (priorityGroup (policySchemaNodes v) q).length ≤ 1) :
    (DefaultV1RecipeValidator.validate ext v imp).1.filter Warning.isSamePriority
      = [.samePriority (priorityGroup (policySchemaNodes v) p) p] := by
  have hpol : (policySchemaNodes v).isEmpty = false := by
    rw [Bool.eq_false_iff]
    intro hemp
    have hnil : policySchemaNodes v = [] := by simpa [List.isEmpty_iff] using hemp
    rw [hnil] at hp
    simp [priorityGroup] at hp
  obtain ⟨hnlu, hcore, hfst⟩ := validate_ok_parts ext v imp hok
  rw [hfst, List.filter_append]
  rw [filter_validateNlu _ (fun _ => rfl) (fun _ _ => rfl) rfl rfl rfl rfl rfl rfl
    rfl rfl ext v _]
  rw [validateCore_fst_of_none ext v imp.getStories imp.getDomain hpol hcore]
  rw [List.filter_append, List.filter_append]
  rw [filter_warnIfNoRulePolicyIsContained _ rfl v,
    filter_warnIfRuleBasedDataIsUnusedOrMissing _ rfl rfl v _]
  rw [warnPriorities_eq_single v p hp hq]
  simp [Warning.isSamePriority, List.filter_cons]

/-- Witness for C6: two policies both configured with priority 1. -/
theorem C6_witness :
    ((DefaultV1RecipeValidator.validate trueExternals twoSamePriorityValidator
        emptyImporter).2.isOk = true
      ∧ (priorityGroup (policySchemaNodes twoSamePriorityValidator) 1).length = 2)
    ∧ (DefaultV1RecipeValidator.validate trueExternals twoSamePriorityValidator
        emptyImporter).1.filter Warning.isSamePriority
      = [.samePriority
          (priorityGroup (policySchemaNodes twoSamePriorityValidator) 1) 1] :=
  ⟨⟨by decide, by decide⟩,
    C6_same_priority_advisory trueExternals twoSamePriorityValidator emptyImporter 1
      (by decide) (by decide) (by decide)⟩

/-- C7: on a validate run with at least one policy node that completes
without raising, a rule-consuming policy without rule steps in the story
graph yields the missing-rule-data advisory, rule steps without a
rule-consuming policy yield the unused-rule-data advisory, and when
consumption and data presence agree no rule-mismatch advisory is emitted. -/
theorem C7_rule_mismatch_advisories (ext : Externals) (v : DefaultV1RecipeValidator)
    (imp : TrainingDataImporter)
    (hpol : policySchemaNodes v ≠ [])
    (hok : (DefaultV1RecipeValidator.validate ext v imp).2.isOk = true) :
    (consumingRuleData v = true → containsRuleTracker imp.getStories = false →
      Warning.ruleDataIsMissing ∈ (DefaultV1RecipeValidator.validate ext v imp).1)
    ∧ (consumingRuleData v = false → containsRuleTracker imp.getStories = true →
      Warning.ruleDataIsUnused ∈ (DefaultV1RecipeValidator.validate ext v imp).1)
    ∧ (consumingRuleData v = containsRuleTracker imp.getStories →
      (DefaultV1RecipeValidator.validate ext v imp).1.filter Warning.isRuleMismatch
        = []) := by
  have hpol2 : (policySchemaNodes v).isEmpty = false := by
    simp [List.isEmpty_iff, hpol]
  obtain ⟨hnlu, hcore, hfst⟩ := validate_ok_parts ext v imp hok
  have hcfst := validateCore_fst_of_none ext v imp.getStories imp.getDomain hpol2 hcore
  refine ⟨?_, ?_, ?_⟩
  · intro hc hr
    have hrb : warnIfRuleBasedDataIsUnusedOrMissing v imp.getStories
        = [.ruleDataIsMissing] := by
      unfold warnIfRuleBasedDataIsUnusedOrMissing
      rw [hc, hr]
      simp
    rw [hfst, hcfst, hrb]
    simp
  · intro hc hr
    have hrb : warnIfRuleBasedDataIsUnusedOrMissing v imp.getStories
        = [.ruleDataIsUnused] := by
      unfold warnIfRuleBasedDataIsUnusedOrMissing
      rw [hc, hr]
      simp
    rw [hfst, hcfst, hrb]
    simp
  · intro hcc
    rw [hfst, List.filter_append]
    rw [filter_validateNlu _ (fun _ => rfl) (fun _ _ => rfl) rfl rfl rfl rfl rfl rfl
      rfl rfl ext v _]
    rw [hcfst, List.filter_append, List.filter_append]
    rw [filter_warnIfNoRulePolicyIsContained _ rfl v]
    have hprio : (warnIfPrioritiesAreNotUnique v).filter Warning.isRuleMismatch
        = [] := by
      unfold warnIfPrioritiesAreNotUnique
      exact filter_samePriorityWarnings Warning.isRuleMismatch (fun _ _ => rfl)
        (policySchemaNodes v) _
    rw [hprio]
    have hrb : (warnIfRuleBasedDataIsUnusedOrMissing v imp.getStories).filter
        Warning.isRuleMismatch = [] := by
      unfold warnIfRuleBasedDataIsUnusedOrMissing
      rw [← hcc]
      cases hc : consumingRuleData v <;> simp
    rw [hrb]
    simp

/-- Witness for C7: a single rule policy with one rule step (consumption and
data presence agree, so no rule-mismatch advisory appears). -/
theorem C7_witness :
    (policySchemaNodes rulePolicyValidator ≠ []
      ∧ (DefaultV1RecipeValidator.validate trueExternals rulePolicyValidator
          ruleStoryImporter).2.isOk = true)
    ∧ (consumingRuleData rulePolicyValidator
        = containsRuleTracker ruleStoryImporter.getStories →
      (DefaultV1RecipeValidator.validate trueExternals rulePolicyValidator
        ruleStoryImporter).1.filter Warning.isRuleMismatch = []) :=
  ⟨⟨by decide, by decide⟩,
    (C7_rule_mismatch_advisories trueExternals rulePolicyValidator ruleStoryImporter
      (by decide) (by decide)).2.2⟩

/-- C8: validate is a pass-through: whenever it returns without raising, the
returned value is the importer argument itself; the embedding is a pure
function of the validator and importer, so neither the importer nor the
precomputed validator state (component-type set and policy-node list) is
mutated by a run. -/
theorem C8_validate_passthrough (ext : Externals) (v : DefaultV1RecipeValidator)
    (imp result : TrainingDataImporter)
    (h : (DefaultV1RecipeValidator.validate ext v imp).2 = .ok result) :
    result = imp := by
  revert h
  unfold DefaultV1RecipeValidator.validate
  cases validateNlu ext v imp.getNluData with
  | mk ws oe =>
    cases oe with
    | some e => intro h; simp at h
    | none =>
      cases validateCore ext v imp.getStories imp.getDomain with
      | mk ws2 oe2 =>
        cases oe2 with
        | some e => intro h; simp at h
        | none => intro h; simp at h; exact h.symm

/-- Witness for C8: a completing run returns its own importer. -/
theorem C8_witness :
    ((DefaultV1RecipeValidator.validate trueExternals tokenizerOnlyValidator
        emptyImporter).2 = .ok emptyImporter)
    ∧ emptyImporter = emptyImporter :=
  ⟨rfl, C8_validate_passthrough trueExternals tokenizerOnlyValidator emptyImporter
    emptyImporter rfl⟩

/-- C5 counterexample: the claim as stated is false on the code: splitlines
keeps the bullet prefix, so the parsed texts are not hello and hi. -/
theorem C5_counterexample : ¬ c5ClaimAsStated := by
  unfold c5ClaimAsStated
  decide

/-- C5 amended: parsing the nlu block for intent greet with the two-line
bullet examples string yields exactly two training examples, both labeled
greet, with zero entities, zero synonyms, zero regex features and zero
lookup tables; the texts, however, keep the bullet prefix verbatim, because
_parse_training_examples splits the string into lines without stripping the
leading bullet. -/
theorem C5_amended_greet_parse :
    greetTrainingData
      = ⟨[⟨"- hello", "greet", [], none⟩, ⟨"- hi", "greet", [], none⟩],
        [], [], []⟩ := by decide

theorem parseNluKey_unexpected (r : RasaYAMLReader) (item : List (String × YamlValue))
    (k : String) (hk : isNluDispatchKey k = false) :
    parseNluKey r item k = (r, [.unexpectedKey k]) := by
  unfold isNluDispatchKey at hk
  simp only [Bool.or_eq_false_iff] at hk
  obtain ⟨⟨⟨h1, h2⟩, h3⟩, h4⟩ := hk
  unfold parseNluKey
  simp [h1, h2, h3, h4]

theorem parseNluKeys_unexpected (item : List (String × YamlValue)) :
    ∀ (ks : List String) (r : RasaYAMLReader),
      (∀ k ∈ ks, isNluDispatchKey k = false) →
      parseNluKeys item r ks = (r, ks.map ReaderWarning.unexpectedKey) := by
  intro ks
  induction ks with
  | nil => intro r _; rfl
  | cons k rest ih =>
    intro r h
    have hk := parseNluKey_unexpected r item k (h k (List.mem_cons_self k rest))
    have hrest := ih r (fun k2 hk2 => h k2 (List.mem_cons_of_mem k hk2))
    simp [parseNluKeys, hk, hrest]

theorem parseNluItem_empty_synonym_block (r : RasaYAMLReader) (name : YamlValue)
    (rest : List (String × YamlValue))
    (hname : yamlTruthy name = false)
    (hrest : ∀ kv ∈ rest, isNluDispatchKey kv.1 = false) :
    parseNluItem r (.dict ((KEY_SYNONYM, name) :: rest))
      = (r, .emptySynonymName
          :: rest.map (fun kv => ReaderWarning.unexpectedKey kv.1)) := by
  have hsyn : parseNluKey r ((KEY_SYNONYM, name) :: rest) KEY_SYNONYM
      = (r, [.emptySynonymName]) := by
    have hl : lookupDict ((KEY_SYNONYM, name) :: rest) KEY_SYNONYM = some name := by
      unfold lookupDict
      simp
    unfold parseNluKey
    rw [if_neg (by decide), if_pos (by decide)]
    unfold parseSynonym
    rw [hl]
    simp [hname]
  have hkeys : ∀ k ∈ rest.map (fun kv => kv.1), isNluDispatchKey k = false := by
    intro k hkmem
    obtain ⟨kv, hkv, rfl⟩ := List.mem_map.mp hkmem
    exact hrest kv hkv
  have hrestkeys := parseNluKeys_unexpected ((KEY_SYNONYM, name) :: rest)
    (rest.map (fun kv => kv.1)) r hkeys
  unfold parseNluItem
  simp only [List.map_cons]
  unfold parseNluKeys
  simp [hsyn, hrestkeys, List.map_map, Function.comp]

theorem parseNluList_state_skip (b : YamlValue)
    (hstate : ∀ r : RasaYAMLReader, (parseNluItem r b).1 = r) :
    ∀ (xs : List YamlValue) (ys : List YamlValue) (r : RasaYAMLReader),
      (parseNluList r (xs ++ b :: ys)).1 = (parseNluList r (xs ++ ys)).1 := by
  intro xs
  induction xs with
  | nil =>
    intro ys r
    simp only [List.nil_append, parseNluList, hstate r]
  | cons x xs ih =>
    intro ys r
    simp only [List.cons_append, parseNluList]
    exact ih ys (parseNluItem r x).1

theorem parseNluList_warning_mem (b : YamlValue) (w : ReaderWarning)
    (hwarn : ∀ r : RasaYAMLReader, w ∈ (parseNluItem r b).2) :
    ∀ (xs : List YamlValue) (ys : List YamlValue) (r : RasaYAMLReader),
      w ∈ (parseNluList r (xs ++ b :: ys)).2 := by
  intro xs
  induction xs with
  | nil =>
    intro ys r
    simp only [List.nil_append, parseNluList]
    exact List.mem_append_left _ (hwarn r)
  | cons x xs ih =>
    intro ys r
    simp only [List.cons_append, parseNluList]
    exact List.mem_append_right _ (ih ys (parseNluItem r x).1)

/-- C9: an nlu synonym block whose name value is empty (falsy) is skipped
with the empty-synonym-name advisory and contributes nothing: the training
data returned equals the training data for the document without the block
(in particular no synonym entry is added), and the advisory is emitted; the
embedded reads is a total function, so no error can be raised. -/
theorem C9_empty_synonym_block_skipped (r : RasaYAMLReader) (name : YamlValue)
    (rest : List (String × YamlValue)) (xs ys : List YamlValue)
    (hname : yamlTruthy name = false)
    (hrest : ∀ kv ∈ rest, isNluDispatchKey kv.1 = false) :
    (r.reads [(KEY_NLU,
        .list (xs ++ YamlValue.dict ((KEY_SYNONYM, name) :: rest) :: ys))]).1
      = (r.reads [(KEY_NLU, .list (xs ++ ys))]).1
    ∧ ReaderWarning.emptySynonymName
      ∈ (r.reads [(KEY_NLU,
          .list (xs ++ YamlValue.dict ((KEY_SYNONYM, name) :: rest) :: ys))]).2 := by
  have hitem := fun r2 => parseNluItem_empty_synonym_block r2 name rest hname hrest
  have hstate : ∀ r2 : RasaYAMLReader,
      (parseNluItem r2 (.dict ((KEY_SYNONYM, name) :: rest))).1 = r2 := by
    intro r2
    rw [hitem r2]
  have hwarn : ∀ r2 : RasaYAMLReader, ReaderWarning.emptySynonymName
      ∈ (parseNluItem r2 (.dict ((KEY_SYNONYM, name) :: rest))).2 := by
    intro r2
    rw [hitem r2]
    exact List.mem_cons_self _ _
  have hS := parseNluList_state_skip _ hstate xs ys (resetState r)
  have hW := parseNluList_warning_mem _ _ hwarn xs ys (resetState r)
  constructor
  · simp [RasaYAMLReader.reads, readsItems, parseNlu, hS]
  · simpa [RasaYAMLReader.reads, readsItems, parseNlu] using hW

/-- Witness for C9: a synonym block with an empty name and one examples
entry, as the only block of the nlu section. -/
theorem C9_witness :
    (yamlTruthy (YamlValue.str "") = false
      ∧ (∀ kv ∈ [(KEY_SYNONYM_EXAMPLES, YamlValue.str "- a")],
          isNluDispatchKey kv.1 = false))
    ∧ ((emptyReader.reads [(KEY_NLU, .list ([] ++ YamlValue.dict
          ((KEY_SYNONYM, YamlValue.str "")
            :: [(KEY_SYNONYM_EXAMPLES, YamlValue.str "- a")]) :: []))]).1
        = (emptyReader.reads [(KEY_NLU, .list ([] ++ []))]).1
      ∧ ReaderWarning.emptySynonymName
        ∈ (emptyReader.reads [(KEY_NLU, .list ([] ++ YamlValue.dict
            ((KEY_SYNONYM, YamlValue.str "")
              :: [(KEY_SYNONYM_EXAMPLES, YamlValue.str "- a")]) :: []))]).2) :=
  ⟨⟨rfl, by decide⟩,
    C9_empty_synonym_block_skipped emptyReader (YamlValue.str "")
      [(KEY_SYNONYM_EXAMPLES, YamlValue.str "- a")] [] [] rfl (by decide)⟩

/-- C10: reads resets all accumulated state before parsing, so the training
data returned depends only on the document parsed in that call: two reader
instances with arbitrary prior accumulated state return equal training-data
objects on the same document. -/
theorem C10_reads_ignores_prior_state (r1 r2 : RasaYAMLReader)
    (doc : List (String × YamlValue)) :
    (r1.reads doc).1 = (r2.reads doc).1 := rfl
